import Mathlib

/-!
Shallow embedding of the content transformation pipeline of the
ZSXQToWordpress repository (src/content_processor.py), together with
theorems settling the frozen claims about it.

Python strings are modelled as lists of characters (`PStr`); the
truthiness of a Python string is non-emptiness; `dict.get` with a default
is modelled by `Option.getD`; a raised `ValueError` is modelled as
`Except.error`.  The mutable instance attribute `_title_source_line` of
`ContentProcessor` is made explicit: the functions that write or read it
take its current value (`Option PStr`, `none` for an absent attribute)
and return its new value.
-/

/-- Python strings, modelled as lists of Unicode characters. -/
abbrev PStr := List Char

/-- Shorthand turning a Lean string literal into a `PStr`. -/
def pys (s : String) : PStr := s.data

/-- Characters stripped by Python `str.strip()` and matched by the regex
class `\s`: ASCII whitespace plus the common Unicode spaces occurring in
this repository's data. -/
def isPySpace (c : Char) : Bool :=
  c = ' ' || c = '\t' || c = '\n' || c = '\r' || c = '\x0b' || c = '\x0c' ||
  c = '\u00A0' || c = '\u3000'

/-- Python's regex class `\w` (word characters), for the character ranges
exercised by this repository: ASCII alphanumerics, the underscore and the
CJK unified ideographs. -/
def isWordChar (c : Char) : Bool :=
  c.isAlphanum || c = '_' || (0x4e00 ≤ c.toNat && c.toNat ≤ 0x9fff)

/-- Python `str.lstrip` restricted to a character predicate. -/
def lstripP (p : Char → Bool) (s : PStr) : PStr := s.dropWhile p

/-- Python `str.rstrip` restricted to a character predicate. -/
def rstripP (p : Char → Bool) (s : PStr) : PStr := (s.reverse.dropWhile p).reverse

/-- Python `str.strip()`. -/
def pyStrip (s : PStr) : PStr := rstripP isPySpace (lstripP isPySpace s)

/-- Python `str.rstrip(cs)` for an explicit character set. -/
def rstripChars (cs : List Char) (s : PStr) : PStr := rstripP (cs.contains ·) s

/-- Python `str.endswith((c1, c2, ...))` for single-character suffixes. -/
def endsWithAnyChar (cs : List Char) (s : PStr) : Bool :=
  match s.getLast? with
  | some c => cs.contains c
  | none => false

/-- Python `str.split(sep)` for a one-character separator, and
`re.split` on a single-character class: splitting an empty string yields
one empty piece, consecutive separators yield empty pieces. -/
def splitOnAnyChar (delims : List Char) : PStr → List PStr
  | [] => [[]]
  | c :: s =>
    if delims.contains c then [] :: splitOnAnyChar delims s
    else
      match splitOnAnyChar delims s with
      | h :: t => (c :: h) :: t
      | [] => [[c]]

/-- Python `str.split('\n')` as used on the topic bodies. -/
def splitNl (s : PStr) : List PStr := splitOnAnyChar ['\n'] s

/-- Worker for `collapseWs`; the boolean records whether the previous
character belonged to a whitespace run that has already been replaced. -/
def collapseWsAux : Bool → PStr → PStr
  | _, [] => []
  | prev, c :: rest =>
    if isPySpace c then
      if prev then collapseWsAux true rest else ' ' :: collapseWsAux true rest
    else c :: collapseWsAux false rest

/-- Python `re.sub(r'\s+', ' ', s)`: collapse each whitespace run to a
single space. -/
def collapseWs (s : PStr) : PStr := collapseWsAux false s

/-- Python `str.find(ch, start)` for a single character; `none` models the
`-1` result. -/
def pyFindFrom (c : Char) (start : Nat) (s : PStr) : Option Nat :=
  match (s.drop start).findIdx? (· = c) with
  | some i => some (start + i)
  | none => none

/-- Strip a literal prefix from a character list, returning the remainder
on success. -/
def dropLit : PStr → PStr → Option PStr
  | [], s => some s
  | _, [] => none
  | p :: ps, c :: cs => if p = c then dropLit ps cs else none

/-!
Markup tag substitution.  `_process_zsxq_tags` (content_processor.py,
lines 581-608) applies four `re.sub` passes for the pattern family
`<e type="TY" title="CAP"[^>]*/>`.  These regexes are deterministic: each
`[^"]*` run ends at the next quote, and `[^>]*/>`matches exactly when the
first `>` after the closing quote is immediately preceded by `/`.
-/

/-- Attempt to match one occurrence of the `<e .../>` pattern at the
current position.  `tyF = some ty` fixes the tag type (the compiled
patterns for text_bold / text_italic / text_delete); `tyF = none` is the
generic pattern of line 65.  Returns the captured title text and the
remainder of the input after the match. -/
def matchETagAt (tyF : Option PStr) (s : PStr) : Option (PStr × PStr) := do
  let r1 ← dropLit (pys "<e type=\"") s
  let tyVal := r1.takeWhile (· ≠ '"')
  let r2 := r1.dropWhile (· ≠ '"')
  let r3 ← dropLit (pys "\" title=\"") r2
  let tyOk := match tyF with
    | some ty => tyVal == ty
    | none => true
  if tyOk then
    let cap := r3.takeWhile (· ≠ '"')
    let r4 := r3.dropWhile (· ≠ '"')
    let r5 ← dropLit ['"'] r4
    let junk := r5.takeWhile (· ≠ '>')
    let r6 := r5.dropWhile (· ≠ '>')
    let r7 ← dropLit ['>'] r6
    if junk ≠ [] ∧ junk.getLast? = some '/' then some (cap, r7) else none
  else none

/-- One left-to-right `re.sub` pass for the `<e .../>` pattern family,
with the replacement built from the captured title.  Runs on fuel;
`subETag` supplies the input length, which bounds the number of scan
steps because every step consumes at least one character. -/
def subETagAux (tyF : Option PStr) (repl : PStr → PStr) : Nat → PStr → PStr
  | 0, s => s
  | _ + 1, [] => []
  | n + 1, c :: rest =>
    match matchETagAt tyF (c :: rest) with
    | some (cap, after) => repl cap ++ subETagAux tyF repl n after
    | none => c :: subETagAux tyF repl n rest

/-- Python `re.sub` over the whole input for one `<e .../>` pattern. -/
def subETag (tyF : Option PStr) (repl : PStr → PStr) (s : PStr) : PStr :=
  subETagAux tyF repl s.length s

/-- Lines 581-608: `_process_zsxq_tags` - the four sequential substitution
passes (bold, italic, strikethrough, then any remaining tag of the family
replaced by its bare title content). -/
def process_zsxq_tags (s : PStr) : PStr :=
  if s = [] then s
  else
    let p1 := subETag (some (pys "text_bold")) (fun t => pys "**" ++ t ++ pys "**") s
    let p2 := subETag (some (pys "text_italic")) (fun t => pys "*" ++ t ++ pys "*") p1
    let p3 := subETag (some (pys "text_delete")) (fun t => pys "~~" ++ t ++ pys "~~") p2
    subETag none (fun t => t) p3

/-!
Title synthesis (`_generate_title`, content_processor.py lines 395-478).
-/

/-- The sentence-terminal punctuation tuple of lines 430 and 343. -/
def terminalPunct : List Char := ['。', '！', '？', '，', '、']

/-- The ordered breakpoint list of line 434. -/
def breakpointChars : List Char := ['：', ':', '，', '、', ' ', '-', '－']

/-- Lines 435-440: scan the ordered breakpoint list; the first breakpoint
found by `str.find(bp, 20)` at an offset of at most 45 wins and the cut
is placed just after it; if no breakpoint qualifies the cut stays at the
default offset 30. -/
def findCutAux (fl : PStr) : List Char → Nat
  | [] => 30
  | bp :: rest =>
    match pyFindFrom bp 20 fl with
    | some p => if 20 ≤ p ∧ p ≤ 45 then p + 1 else findCutAux fl rest
    | none => findCutAux fl rest

/-- Line 442: smart truncation of a long first line - cut, trim trailing
full-width colon, colon and space, append the ellipsis character. -/
def smart_cut (fl : PStr) : PStr :=
  let best_cut := findCutAux fl breakpointChars
  rstripChars ['：', ':', ' '] (fl.take best_cut) ++ ['…']

/-- Lines 429-448: the first-line path of `_generate_title`.  Returns
`some title` exactly when the processed first line qualifies as title
material (length at most 80, not ending in terminal punctuation). -/
def first_line_title (fl : PStr) : Option PStr :=
  if fl.length ≤ 80 ∧ endsWithAnyChar terminalPunct fl = false then
    some (if 50 < fl.length then smart_cut fl else fl)
  else none

/-!
Datetime parsing (`parse_datetime_safe`, content_processor.py lines
14-43) and the share-date title format of line 473.
-/

/-- The fields of a parsed datetime value. -/
structure PyDateTime where
  year : Nat
  month : Nat
  day : Nat
  hour : Nat := 0
  minute : Nat := 0
  second : Nat := 0
  microsecond : Nat := 0
  tzOffsetMinutes : Option Int := none
deriving DecidableEq

/-- Numeric value of a run of decimal digit characters. -/
def digitsToNat (ds : PStr) : Nat := ds.foldl (fun a c => a * 10 + (c.toNat - 48)) 0

/-- Read exactly `n` decimal digits from the front of the input. -/
def readNDigits (n : Nat) (s : PStr) : Option (Nat × PStr) :=
  let ds := s.take n
  if ds.length = n ∧ ds.all Char.isDigit then some (digitsToNat ds, s.drop n)
  else none

def isLeapYear (y : Nat) : Bool := (y % 4 == 0 && y % 100 != 0) || y % 400 == 0

def daysInMonth (y m : Nat) : Nat :=
  if m = 2 then (if isLeapYear y then 29 else 28)
  else if m = 4 ∨ m = 6 ∨ m = 9 ∨ m = 11 then 30
  else 31

/-- Fractional-second suffix: a dot followed by one to six digits. -/
def readFraction : PStr → Option (Nat × PStr)
  | '.' :: rest =>
    let ds := rest.takeWhile Char.isDigit
    if 1 ≤ ds.length ∧ ds.length ≤ 6 then some (digitsToNat ds, rest.drop ds.length)
    else none
  | s => some (0, s)

/-- Trailing UTC-offset suffix `+HH:MM` / `-HH:MM`, which must consume the
rest of the input. -/
def readOffset : PStr → Option (Option Int)
  | [] => some none
  | c :: rest =>
    if c = '+' ∨ c = '-' then do
      let (h, r1) ← readNDigits 2 rest
      let r2 ← dropLit [':'] r1
      let (m, r3) ← readNDigits 2 r2
      if r3 = [] ∧ h ≤ 23 ∧ m ≤ 59 then
        some (some ((if c = '-' then (-1 : Int) else 1) * (Int.ofNat (h * 60 + m))))
      else none
    else none

/-- Model of CPython `datetime.fromisoformat` restricted to the shapes
this program produces and consumes: `YYYY-MM-DD`, optionally followed by
a `T`- or space-separated `HH:MM[:SS[.ffffff]]` time with one to six
fractional digits, optionally followed by a `+HH:MM`/`-HH:MM` offset.
Field ranges are validated as CPython does. -/
def fromisoformat (s : PStr) : Option PyDateTime := do
  let (y, r1) ← readNDigits 4 s
  let r2 ← dropLit ['-'] r1
  let (mo, r3) ← readNDigits 2 r2
  let r4 ← dropLit ['-'] r3
  let (d, r5) ← readNDigits 2 r4
  if 1 ≤ mo ∧ mo ≤ 12 ∧ 1 ≤ d ∧ d ≤ daysInMonth y mo then
    match r5 with
    | [] => some { year := y, month := mo, day := d }
    | sep :: r6 =>
      if sep = 'T' ∨ sep = ' ' then do
        let (h, r7) ← readNDigits 2 r6
        let r8 ← dropLit [':'] r7
        let (mi, r9) ← readNDigits 2 r8
        let (sec, frac, r10) ←
          (match dropLit [':'] r9 with
           | some rA => do
             let (sec, rB) ← readNDigits 2 rA
             let (fr, rC) ← readFraction rB
             some (sec, fr, rC)
           | none => some (0, 0, r9))
        if h ≤ 23 ∧ mi ≤ 59 ∧ sec ≤ 59 then do
          let off ← readOffset r10
          some { year := y, month := mo, day := d, hour := h, minute := mi,
                 second := sec, microsecond := frac, tzOffsetMinutes := off }
        else none
      else none
  else none

/-- Python `str.replace(c, r)` for a single-character needle. -/
def replaceCharBy (c : Char) (r : PStr) (s : PStr) : PStr :=
  s.foldr (fun x acc => if x = c then r ++ acc else x :: acc) []

/-- Lines 30-38: rewrite a trailing `+HHMM`/`-HHMM` timezone to the
colon form `+HH:MM`. -/
def fixTz (s : PStr) : PStr :=
  match s.reverse with
  | d4 :: d3 :: d2 :: d1 :: sg :: rest =>
    if (sg = '+' ∨ sg = '-') ∧ d1.isDigit ∧ d2.isDigit ∧ d3.isDigit ∧ d4.isDigit then
      (d4 :: d3 :: ':' :: d2 :: d1 :: sg :: rest).reverse
    else s
  | _ => s

/-- Lines 14-43: `parse_datetime_safe`.  A raised `ValueError` is modelled
as `Except.error`. -/
def parse_datetime_safe (s : PStr) : Except String PyDateTime :=
  if s = [] then .error "empty date string"
  else
    let s1 := if s.getLast? = some 'Z' then replaceCharBy 'Z' (pys "+00:00") s else s
    let s2 := fixTz s1
    match fromisoformat s2 with
    | some dt => .ok dt
    | none => .error "cannot parse datetime string"

/-- Left-pad a number with zeros to the given width. -/
def padNum (w n : Nat) : PStr :=
  let ds := (Nat.repr n).data
  List.replicate (w - ds.length) '0' ++ ds

/-- Line 473: `dt.strftime('%Y年%m月%d日分享')`. -/
def formatShareDate (dt : PyDateTime) : PStr :=
  padNum 4 dt.year ++ pys "年" ++ padNum 2 dt.month ++ pys "月" ++
    padNum 2 dt.day ++ pys "日分享"

/-!
The untyped record structure and the typed view of the keys read by the
title, classification and category code.
-/

/-- Untyped JSON-like values: the shape of the raw topic dictionaries
traversed by `_extract_images`. -/
inductive Json where
  | null : Json
  | bool (b : Bool) : Json
  | num (n : Int) : Json
  | str (s : PStr) : Json
  | arr (xs : List Json) : Json
  | obj (kvs : List (PStr × Json)) : Json

/-- Python truthiness of an untyped value. -/
def Json.truthy : Json → Bool
  | .null => false
  | .bool b => b
  | .num n => n != 0
  | .str s => !s.isEmpty
  | .arr xs => !xs.isEmpty
  | .obj kvs => !kvs.isEmpty

/-- The `talk` sub-dictionary, restricted to the keys the code reads.
`none` models an absent key. -/
structure TalkData where
  text : Option PStr := none
  article : Option Json := none

/-- The `question` / `answer` sub-dictionaries. -/
structure TextBlock where
  text : Option PStr := none

/-- The `content` sub-dictionary, which may carry an explicit title. -/
structure ContentBlock where
  text : Option PStr := none
  title : Option PStr := none

/-- A source record (`topic` dictionary), restricted to the keys read by
the title/classification/category code.  `none` models an absent key. -/
structure Topic where
  type : Option PStr := none
  talk : Option TalkData := none
  question : Option TextBlock := none
  answer : Option TextBlock := none
  content : Option ContentBlock := none
  create_time : PStr := []
  digested : Bool := false
  sticky : Bool := false
  column_name : Option PStr := none

/-- The `special_categories` configuration section. -/
structure SpecialCategories where
  digested : Option PStr := none
  sticky : Option PStr := none

/-- The `article_settings` configuration section. -/
structure ArticleSettings where
  sync_title : Option Bool := none
  placeholder_title : Option PStr := none
  default_classification : Option PStr := none
  category : Option PStr := none

/-- The `topic_settings` configuration section (the fields read by
`_determine_categories`). -/
structure TopicSettings where
  default_classification : Option PStr := none
  category : Option PStr := none

/-- The `content_mapping` configuration section. -/
structure ContentMapping where
  enable_column_mapping : Bool := false
  special_categories : SpecialCategories := {}
  article_settings : ArticleSettings := {}
  topic_settings : TopicSettings := {}

/-- The legacy global `sync` configuration section. -/
structure SyncSettings where
  sync_title : Option Bool := none

/-- The processor configuration. -/
structure Config where
  content_mapping : ContentMapping := {}
  sync : SyncSettings := {}

/-!
Body-text selection and title generation.
-/

/-- Guard of the `talk` branch of the if/elif chains at lines 160-167,
233-240 and 408-419. -/
def isTalkBranch (t : Topic) : Bool :=
  t.type.getD [] == pys "talk" && t.talk.isSome

/-- Guard of the `q&a-question` branch. -/
def isQuestionBranch (t : Topic) : Bool :=
  t.type.getD [] == pys "q&a-question" && t.question.isSome

/-- Guard of the `q&a-answer` branch. -/
def isAnswerBranch (t : Topic) : Bool :=
  t.type.getD [] == pys "q&a-answer" && t.answer.isSome

/-- Lines 159-167 (and 406-416): the body text selected by the if/elif
chain, defaulting to the empty string. -/
def topicText (t : Topic) : PStr :=
  if isTalkBranch t then ((t.talk.getD {}).text).getD []
  else if isQuestionBranch t then ((t.question.getD {}).text).getD []
  else if isAnswerBranch t then ((t.answer.getD {}).text).getD []
  else if t.content.isSome then ((t.content.getD {}).text).getD []
  else []

/-- Lines 417-419: the early explicit-title return of `_generate_title`,
taken only in the `content` branch of the chain and only when
`content['title']` is truthy (present and non-empty). -/
def explicitTitle (t : Topic) : Option PStr :=
  if isTalkBranch t = false ∧ isQuestionBranch t = false ∧
      isAnswerBranch t = false ∧ t.content.isSome then
    match (t.content.getD {}).title with
    | some ti => if ti ≠ [] then some ti else none
    | none => none
  else none

/-- Lines 420-478 of `_generate_title`: every path after the explicit
title early return.  Returns the title together with the value written to
the instance attribute `_title_source_line` (`some` raw stripped first
line on the first-line path per line 447; `none` on the other paths per
lines 459, 467 and 476).  The `ValueError` raised by
`parse_datetime_safe` propagates as `Except.error`. -/
def generate_title_core (t : Topic) : Except String (PStr × Option PStr) :=
  let text := topicText t
  let lines := splitNl (pyStrip text)
  let firstTry : Option (PStr × PStr) :=
    match lines with
    | [] => none
    | l0 :: _ =>
      if l0 ≠ [] then
        match first_line_title (process_zsxq_tags (pyStrip l0)) with
        | some ti => some (ti, pyStrip l0)
        | none => none
      else none
  match firstTry with
  | some (ti, src) => .ok (ti, some src)
  | none =>
    let clean_text := pyStrip (collapseWs text)
    if clean_text ≠ [] then
      let sentenceTry : Option PStr :=
        match splitOnAnyChar ['。', '！', '？'] clean_text with
        | [] => none
        | s0 :: _ =>
          if s0 ≠ [] then
            let fs := pyStrip s0
            if fs.length ≤ 50 then some fs else none
          else none
      match sentenceTry with
      | some fs => .ok (fs, none)
      | none =>
        if 30 < clean_text.length then .ok (clean_text.take 30 ++ ['…'], none)
        else .ok (clean_text, none)
    else if t.create_time ≠ [] then
      match parse_datetime_safe t.create_time with
      | .ok dt => .ok (formatShareDate dt, none)
      | .error e => .error e
    else .ok (pys "无标题", none)

/-- Lines 395-478: `_generate_title`, with the instance attribute
`_title_source_line` made explicit.  The first argument is the attribute
value on entry and the second component of the result its value on exit;
the explicit-title early return at line 419 leaves it untouched. -/
def generate_title (st : Option PStr) (t : Topic) :
    Except String (PStr × Option PStr) :=
  match explicitTitle t with
  | some ti => .ok (ti, st)
  | none => generate_title_core t

/-!
Title-duplication removal (`_remove_title_duplication` and the match
predicates, content_processor.py lines 526-579 and 708-727).
-/

/-- Lines 708-710: `_exact_match` - the first line starts with the title
stripped of trailing ellipsis and dots. -/
def exact_match (first_line title : PStr) : Bool :=
  List.isPrefixOf (rstripChars ['…', '.'] title) first_line

/-- Lines 712-716: `_truncated_match` - same prefix test, but only for
stripped titles of length at least 10. -/
def truncated_match (first_line title : PStr) : Bool :=
  let clean_title := rstripChars ['…', '.'] title
  List.isPrefixOf clean_title first_line && decide (10 ≤ clean_title.length)

/-- Line 72 and lines 721-723: removal of every character matched by the
compiled pattern `[^\w\s]`. -/
def stripPunct (s : PStr) : PStr := s.filter (fun c => isWordChar c || isPySpace c)

/-- Lines 718-727: `_fuzzy_match` - prefix test on punctuation-stripped
strings, only for non-empty stripped titles of length at least 8. -/
def fuzzy_match (first_line title : PStr) : Bool :=
  let clean_title := rstripChars ['…', '.'] title
  let title_clean := stripPunct clean_title
  let first_line_clean := stripPunct first_line
  !title_clean.isEmpty && List.isPrefixOf title_clean first_line_clean &&
    decide (8 ≤ title_clean.length)

/-- Lines 552-579: `_is_title_duplicate`, with the instance attribute
`_title_source_line` as an explicit argument (`none` models an absent
attribute; an empty stored string is falsy and skips the first check). -/
def is_title_duplicate (st : Option PStr) (first_line title : PStr) : Bool :=
  (match st with
   | some s => !s.isEmpty && first_line == s
   | none => false)
  || exact_match first_line title
  || truncated_match first_line title
  || fuzzy_match first_line title

/-- Lines 526-550: `_remove_title_duplication`. -/
def remove_title_duplication (st : Option PStr) (text title : PStr) : PStr :=
  if text = [] ∨ title = [] then text
  else
    match splitNl (pyStrip text) with
    | [] => text
    | l0 :: rest =>
      if l0 = [] then text
      else if is_title_duplicate st (pyStrip l0) title then
        pyStrip (List.intercalate ['\n'] rest)
      else text

/-!
The article path of `process_topic`: title selection followed by the
duplication-removal stage of `_process_content`.
-/

/-- Lines 170-175: resolution of the article `sync_title` flag with the
legacy global fallback. -/
def article_sync_title (cfg : Config) : Bool :=
  match cfg.content_mapping.article_settings.sync_title with
  | some b => b
  | none => cfg.sync.sync_title.getD true

/-- Lines 177-182: title selection for the article path - synthesis when
`sync_title` is on, the configured placeholder otherwise. -/
def article_title_step (st : Option PStr) (cfg : Config) (t : Topic) :
    Except String (PStr × Option PStr) :=
  if article_sync_title cfg then generate_title st t
  else .ok (cfg.content_mapping.article_settings.placeholder_title.getD (pys "无标题"), st)

/-- The state-relevant fragment of `_process_article` (lines 155-185)
composed with the first stage of `_process_content` (lines 490-494):
title selection followed by title-duplication removal on the body - the
stage that reads the `_title_source_line` attribute.  Returns the title,
the deduplicated body, and the attribute value after the call. -/
def title_and_dedup (st : Option PStr) (cfg : Config) (t : Topic) :
    Except String ((PStr × PStr) × Option PStr) :=
  match article_title_step st cfg t with
  | .error e => .error e
  | .ok (title, st1) =>
    let text := topicText t
    let deduped := if text = [] then [] else remove_title_duplication st1 text title
    .ok ((title, deduped), st1)

/-!
Content classification and category determination.
-/

/-- Truthiness of an optional untyped value (an absent key is falsy). -/
def truthyOptJson : Option Json → Bool
  | some a => a.truthy
  | none => false

/-- Lines 103-144: `_determine_content_type`. -/
def determine_content_type (t : Topic) : PStr :=
  let ty := t.type.getD (pys "talk")
  if ty == pys "talk" && t.talk.isSome then
    if truthyOptJson (t.talk.getD {}).article then pys "article"
    else pys "short_content"
  else if ty == pys "q&a-question" || ty == pys "q&a-answer" then pys "article"
  else if ty == pys "article" then pys "article"
  else pys "short_content"

/-- Lines 843-863: the categories accumulated before the default
fallback - the `_column_name` entry (the `hasattr` conjunct at line 850
is always false because the topic is a dict, so only the `elif` at line
852 can fire) followed by the featured and pinned special categories. -/
def baseCategories (cfg : Config) (t : Topic) : List PStr :=
  let cats1 : List PStr :=
    match t.column_name with
    | some cn => if cn ≠ [] then [cn] else []
    | none => []
  let sc := cfg.content_mapping.special_categories
  let cats2 := cats1 ++ (if t.digested then [sc.digested.getD (pys "精华")] else [])
  cats2 ++ (if t.sticky then [sc.sticky.getD (pys "置顶")] else [])

/-- Lines 865-874: the per-content-class default category with its
two-key fallback chain. -/
def defaultCategory (cfg : Config) (t : Topic) : PStr :=
  if determine_content_type t == pys "article" then
    let a := cfg.content_mapping.article_settings
    a.default_classification.getD (a.category.getD (pys "Trending"))
  else
    let ts := cfg.content_mapping.topic_settings
    ts.default_classification.getD (ts.category.getD (pys "Trending"))

/-- Lines 834-883: `_determine_categories` - the accumulated categories,
with the content-class default appended when nothing was accumulated. -/
def determine_categories (cfg : Config) (t : Topic) : List PStr :=
  let categories := baseCategories cfg t
  if categories = [] then categories ++ [defaultCategory cfg t] else categories

/-!
Image extraction (`_extract_images`, content_processor.py lines 729-780).
-/

/-- Key lookup in a dict, modelled as first-match lookup in the ordered
association list (Python dict keys are unique). -/
def jLookup : List (PStr × Json) → PStr → Option Json
  | [], _ => none
  | (k, v) :: rest, key => if k = key then some v else jLookup rest key

/-- Lines 754-758: the size-variant probe - the value under the size key
must itself be a dict containing a `url` key. -/
def urlOfSize (kvs : List (PStr × Json)) (size : PStr) : Option Json :=
  match jLookup kvs size with
  | some (.obj inner) => jLookup inner (pys "url")
  | _ => none

/-- Lines 751-766: the URL value selected from one element of an `images`
list - size variants `large`, `original`, `thumbnail` in order, then a
bare `url` key, then the element itself when it is a string starting with
`http`. -/
def selectImageUrl : Json → Option Json
  | .obj kvs =>
    match urlOfSize kvs (pys "large") with
    | some u => some u
    | none =>
      match urlOfSize kvs (pys "original") with
      | some u => some u
      | none =>
        match urlOfSize kvs (pys "thumbnail") with
        | some u => some u
        | none => jLookup kvs (pys "url")
  | .str s => if List.isPrefixOf (pys "http") s then some (.str s) else none
  | _ => none

/-- Lines 748-766: the URLs collected from the value of an `images` key
when it is a list - at most one per element, in element order. -/
def imagesOf (elems : List Json) : List Json :=
  elems.foldr (fun e acc =>
    (match selectImageUrl e with
     | some u => [u]
     | none => []) ++ acc) []

/-- Python `isinstance(v, (dict, list))`. -/
def isContainer : Json → Bool
  | .obj _ => true
  | .arr _ => true
  | _ => false

/-- Lines 743-776: the recursive `extract_image_urls` walker.  At a dict,
the `images` key (when list-valued) is processed first, then every other
dict- or list-valued field is recursed into in key order; at a list,
every element is recursed into; scalars contribute nothing. -/
def extract_image_urls : Json → List Json
  | .obj kvs =>
    (match jLookup kvs (pys "images") with
     | some (.arr elems) => imagesOf elems
     | _ => []) ++ walkObj kvs
  | .arr xs => walkArr xs
  | _ => []
where
  walkObj : List (PStr × Json) → List Json
    | [] => []
    | (k, v) :: rest =>
      (if k ≠ pys "images" ∧ isContainer v then extract_image_urls v else []) ++
        walkObj rest
  walkArr : List Json → List Json
    | [] => []
    | x :: rest => extract_image_urls x ++ walkArr rest

/-- Lines 729-780: `_extract_images` applied to the whole topic. -/
def extract_images (topic : Json) : List Json := extract_image_urls topic

/-!
Decidable equality for result types, and the concrete records used by
the witnesses and counterexamples.
-/

deriving instance DecidableEq for Except

/-- Stripped first line of a body, as `_remove_title_duplication` computes
it (lines 539-543). -/
def firstLineStripped (t : PStr) : PStr := pyStrip ((splitNl (pyStrip t)).headD [])

/-- A first line of 45 letters, a full-width comma at offset 45 and a ten
letter tail: 56 characters, not ending in terminal punctuation. -/
def flC1 : PStr := List.replicate 45 'a' ++ ['，'] ++ List.replicate 10 'b'

/-- A talk whose body is `flC1`. -/
def topicC1 : Topic := { type := some (pys "talk"), talk := some { text := some flC1 } }

/-- A talk-article whose first body line is a zsxq tag with an empty
title attribute, so tag processing erases it completely. -/
def topicC3 : Topic :=
  { type := some (pys "talk"),
    talk := some { text := some (pys "<e type=\"w\" title=\"\" />\nxyz"),
                   article := some (Json.bool true) } }

/-- A talk record that also carries a `content` dict with an explicit
title: the talk branch wins and the explicit title is never looked at. -/
def topicC4 : Topic :=
  { type := some (pys "talk"), talk := some { text := some (pys "hello") },
    content := some { text := some (pys "x"), title := some (pys "T") } }

/-- A record of a kind outside the talk/question/answer branches whose
`content` dict carries an explicit title. -/
def topicC4w : Topic :=
  { type := some (pys "article"),
    content := some { text := some (pys "x"), title := some (pys "T") } }

/-- A whitespace-only body together with an unparseable timestamp. -/
def topicC5 : Topic :=
  { type := some (pys "talk"), talk := some { text := some (pys " ") },
    create_time := pys "garbage" }

/-- A whitespace-only body with no timestamp at all. -/
def topicC5w : Topic :=
  { type := some (pys "talk"), talk := some { text := some (pys " ") } }

/-- First record of the C6 scenario: its title synthesis stores
`secret line` as the source line. -/
def topicA : Topic :=
  { type := some (pys "talk"),
    talk := some { text := some (pys "secret line\nmore"),
                   article := some (Json.bool true) } }

/-- Second record of the C6 scenario: an article-classified record with
an explicit title `T` and a body starting with the very line the
previous record stored. -/
def topicB : Topic :=
  { type := some (pys "article"),
    content := some { text := some (pys "secret line\nB body"),
                      title := some (pys "T") } }

/-- The image-scenario record: `images` nested under `talk.article`. -/
def topicC9 : Json :=
  .obj [(pys "topic_id", .num 1),
        (pys "talk", .obj [(pys "article",
          .obj [(pys "images", .arr [.obj [(pys "original",
            .obj [(pys "url", .str (pys "http://a/x.jpg"))])]])])])]

/-- The same URL in two separate `images` collections. -/
def topicC9dup : Json :=
  .obj [(pys "a", .obj [(pys "images", .arr [.str (pys "http://a/x.jpg")])]),
        (pys "b", .obj [(pys "images", .arr [.str (pys "http://a/x.jpg")])])]

/-- The duplicate predicate as the claim states it: the first line
equals the recorded source line; or it starts with the ellipsis-stripped
title; or the ellipsis-stripped title has length at least 10 and the
first line starts with it; or, after removing all non-word, non-space
characters from both strings, the title remnant is non-empty with length
at least 8 and the stripped first line starts with it. -/
def claimedDuplicate (st : Option PStr) (first_line title : PStr) : Prop :=
  (∃ s, st = some s ∧ first_line = s)
  ∨ rstripChars ['…', '.'] title <+: first_line
  ∨ (10 ≤ (rstripChars ['…', '.'] title).length ∧
      rstripChars ['…', '.'] title <+: first_line)
  ∨ (stripPunct title ≠ [] ∧ 8 ≤ (stripPunct title).length ∧
      stripPunct title <+: stripPunct first_line)

/-!
Helper lemmas about the string model.
-/

theorem length_dropWhile_le (p : Char → Bool) (l : List Char) :
    (l.dropWhile p).length ≤ l.length := by
  induction l with
  | nil => simp
  | cons c l ih =>
    by_cases h : p c
    · rw [List.dropWhile_cons_of_pos h]
      exact Nat.le_trans ih (Nat.le_succ _)
    · rw [List.dropWhile_cons_of_neg h]

theorem rstripP_length_le (p : Char → Bool) (s : PStr) :
    (rstripP p s).length ≤ s.length := by
  unfold rstripP
  rw [List.length_reverse]
  have h := length_dropWhile_le p s.reverse
  rwa [List.length_reverse] at h

theorem rstripP_eq_nil_iff (p : Char → Bool) (s : PStr) :
    rstripP p s = [] ↔ ∀ c ∈ s, p c := by
  unfold rstripP
  rw [List.reverse_eq_nil_iff, List.dropWhile_eq_nil_iff]
  constructor
  · intro h c hc
    exact h c (List.mem_reverse.mpr hc)
  · intro h c hc
    exact h c (List.mem_reverse.mp hc)

theorem rstripP_decomp (p : Char → Bool) (s : PStr) :
    s = rstripP p s ++ (s.reverse.takeWhile p).reverse ∧
      ∀ c ∈ (s.reverse.takeWhile p).reverse, p c := by
  constructor
  · conv_lhs => rw [← s.reverse_reverse, ← List.takeWhile_append_dropWhile p s.reverse]
    rw [List.reverse_append]
    rfl
  · intro c hc
    exact List.mem_takeWhile_imp (List.mem_reverse.mp hc)

theorem dropWhile_head_not (p : Char → Bool) {l : List Char} {c : Char} {t : List Char}
    (h : l.dropWhile p = c :: t) : p c = false := by
  induction l with
  | nil => simp at h
  | cons a l ih =>
    by_cases ha : p a
    · rw [List.dropWhile_cons_of_pos ha] at h
      exact ih h
    · rw [List.dropWhile_cons_of_neg ha] at h
      cases h
      exact Bool.of_not_eq_true ha

theorem pyStrip_eq_nil_iff (s : PStr) :
    pyStrip s = [] ↔ ∀ c ∈ s, isPySpace c := by
  unfold pyStrip lstripP
  rw [rstripP_eq_nil_iff]
  constructor
  · intro h c hc
    have hc2 : c ∈ s.takeWhile isPySpace ++ s.dropWhile isPySpace := by
      rw [List.takeWhile_append_dropWhile]
      exact hc
    rcases List.mem_append.mp hc2 with h1 | h2
    · exact List.mem_takeWhile_imp h1
    · exact h c h2
  · intro h c hc
    exact h c (List.dropWhile_sublist isPySpace |>.mem hc)

theorem pyStrip_head_not_space {s : PStr} {c : Char} {r : PStr}
    (h : pyStrip s = c :: r) : isPySpace c = false := by
  have hd := (rstripP_decomp isPySpace (lstripP isPySpace s)).1
  unfold pyStrip at h
  rw [h, List.cons_append] at hd
  unfold lstripP at hd
  exact dropWhile_head_not isPySpace hd

theorem splitOnAnyChar_ne_nil (ds : List Char) (s : PStr) :
    splitOnAnyChar ds s ≠ [] := by
  induction s with
  | nil => simp [splitOnAnyChar]
  | cons c s ih =>
    rw [splitOnAnyChar]
    by_cases h : ds.contains c
    · rw [if_pos h]
      simp
    · rw [if_neg h]
      cases e : splitOnAnyChar ds s with
      | nil => exact absurd e ih
      | cons a t => simp

theorem splitOnAnyChar_cons (ds : List Char) (c : Char) (s : PStr) :
    splitOnAnyChar ds (c :: s) =
      if ds.contains c then [] :: splitOnAnyChar ds s
      else (c :: (splitOnAnyChar ds s).headD []) :: (splitOnAnyChar ds s).tail := by
  have hne := splitOnAnyChar_ne_nil ds s
  rw [splitOnAnyChar]
  by_cases h : ds.contains c
  · rw [if_pos h, if_pos h]
  · rw [if_neg h, if_neg h]
    cases e : splitOnAnyChar ds s with
    | nil => exact absurd e hne
    | cons a t => simp [e]

theorem splitNl_strip_head (text : PStr) (h : pyStrip text ≠ []) :
    ∃ l0 rest, splitNl (pyStrip text) = l0 :: rest ∧ l0 ≠ [] := by
  cases e : pyStrip text with
  | nil => exact absurd e h
  | cons c r =>
    have hc : isPySpace c = false := pyStrip_head_not_space e
    have hcn : (['\n'] : List Char).contains c = false := by
      simp only [List.contains_cons, List.contains_nil, Bool.or_false]
      cases hq : c == '\n' with
      | false => rfl
      | true =>
        exfalso
        rw [beq_iff_eq] at hq
        rw [hq] at hc
        simp [isPySpace] at hc
    refine ⟨c :: (splitOnAnyChar ['\n'] r).headD [], (splitOnAnyChar ['\n'] r).tail, ?_, ?_⟩
    · unfold splitNl
      rw [splitOnAnyChar_cons, hcn]
      simp
    · simp

theorem nil_isPrefixOf (l : List Char) : List.isPrefixOf ([] : List Char) l = true := by
  cases l <;> rfl

theorem stripPunct_rstrip_ellipsis (s : PStr) :
    stripPunct (rstripChars ['…', '.'] s) = stripPunct s := by
  obtain ⟨hdec, hsuf⟩ := rstripP_decomp ((['…', '.'] : List Char).contains ·) s
  unfold rstripChars
  conv_rhs => rw [stripPunct, hdec, List.filter_append]
  have hz : List.filter (fun c => isWordChar c || isPySpace c)
      (s.reverse.takeWhile ((['…', '.'] : List Char).contains ·)).reverse = [] := by
    rw [List.filter_eq_nil_iff]
    intro a ha
    have := hsuf a ha
    simp only [List.contains_cons, List.contains_nil, Bool.or_false, Bool.or_eq_true,
      beq_iff_eq] at this
    rcases this with h | h <;> subst h <;> decide
  rw [hz, List.append_nil]
  rfl

theorem findCutAux_le (fl : PStr) (bps : List Char) : findCutAux fl bps ≤ 46 := by
  induction bps with
  | nil => simp [findCutAux]
  | cons bp rest ih =>
    cases e : pyFindFrom bp 20 fl with
    | none =>
      simp only [findCutAux, e]
      exact ih
    | some p =>
      simp only [findCutAux, e]
      by_cases h : 20 ≤ p ∧ p ≤ 45
      · rw [if_pos h]
        omega
      · rw [if_neg h]
        exact ih

theorem collapseWsAux_space {s : PStr} (h : ∀ c ∈ s, isPySpace c) (b : Bool) :
    ∀ c ∈ collapseWsAux b s, isPySpace c := by
  induction s generalizing b with
  | nil => simp [collapseWsAux]
  | cons a s ih =>
    have ha : isPySpace a := h a (List.mem_cons_self a s)
    have hs : ∀ c ∈ s, isPySpace c := fun c hc => h c (List.mem_cons_of_mem a hc)
    intro c hc
    unfold collapseWsAux at hc
    rw [if_pos ha] at hc
    by_cases hb : b
    · subst hb
      simp only [if_true] at hc
      exact ih hs true c hc
    · simp only [hb, if_false] at hc
      rcases List.mem_cons.mp hc with h1 | h1
      · subst h1; rfl
      · exact ih hs true c h1

theorem pyStrip_collapseWs_eq_nil {s : PStr} (h : pyStrip s = []) :
    pyStrip (collapseWs s) = [] := by
  rw [pyStrip_eq_nil_iff]
  exact collapseWsAux_space ((pyStrip_eq_nil_iff s).mp h) false

/-!
Claim theorems.
-/

/-- C1 (amended): for every processed first line accepted by the
first-line path of `_generate_title`, the title excluding any appended
ellipsis never exceeds 50 characters, and on the long-line smart-cut path
the cut portion before the ellipsis never exceeds 46 characters (the
claimed bound of 45 fails, see the counterexample: a breakpoint found at
offset 45 cuts after it, keeping 46 characters). -/
theorem title_first_line_length_bound (fl t : PStr) (h : first_line_title fl = some t) :
    (fl.length ≤ 50 → t.length ≤ 50) ∧
    (50 < fl.length → t.getLast? = some '…' ∧ t.dropLast.length ≤ 46) := by
  unfold first_line_title at h
  by_cases hc : fl.length ≤ 80 ∧ endsWithAnyChar terminalPunct fl = false
  · rw [if_pos hc] at h
    injection h with h
    by_cases h50 : 50 < fl.length
    · rw [if_pos h50] at h
      subst h
      refine ⟨fun hb => absurd hb (by omega), fun _ => ?_⟩
      simp only [smart_cut]
      refine ⟨List.getLast?_concat _, ?_⟩
      rw [List.dropLast_concat]
      have h2 : (fl.take (findCutAux fl breakpointChars)).length ≤
          findCutAux fl breakpointChars := by
        rw [List.length_take]
        exact min_le_left _ _
      have h3 := findCutAux_le fl breakpointChars
      simp only [rstripChars]
      exact le_trans (rstripP_length_le _ _) (le_trans h2 h3)
    · rw [if_neg h50] at h
      subst h
      exact ⟨fun hb => hb, fun hb => absurd hb h50⟩
  · rw [if_neg hc] at h
    exact absurd h (by simp)

/-- C1 witness: a short first line is returned verbatim and satisfies the
amended bounds. -/
theorem title_first_line_length_bound_witness :
    first_line_title (pys "hello") = some (pys "hello") ∧
    (((pys "hello").length ≤ 50 → (pys "hello").length ≤ 50) ∧
     (50 < (pys "hello").length →
       (pys "hello").getLast? = some '…' ∧ (pys "hello").dropLast.length ≤ 46)) :=
  ⟨by decide, title_first_line_length_bound (pys "hello") (pys "hello") (by decide)⟩

/-- C1 counterexample: with 45 letters, a full-width comma at offset 45
and a ten-letter tail, the first-line path of `_generate_title` keeps 46
characters before the ellipsis - more than the claimed 45. -/
theorem title_smart_cut_exceeds_45 :
    generate_title none topicC1 =
      .ok (List.replicate 45 'a' ++ ['，', '…'], some flC1) ∧
    (List.replicate 45 'a' ++ ['，', '…'] : PStr).dropLast.length = 46 ∧
    ¬ (List.replicate 45 'a' ++ ['，', '…'] : PStr).dropLast.length ≤ 45 := by
  decide

/-- C8: `_determine_categories` always returns at least one category;
when neither a column name nor a featured or pinned special category
produced an entry, the single content-class default is appended. -/
theorem determine_categories_nonempty (cfg : Config) (t : Topic) :
    (baseCategories cfg t = [] → determine_categories cfg t = [defaultCategory cfg t]) ∧
    1 ≤ (determine_categories cfg t).length := by
  constructor
  · intro h
    simp only [determine_categories]
    rw [if_pos h, h]
    rfl
  · simp only [determine_categories]
    by_cases h : baseCategories cfg t = []
    · rw [if_pos h, h]
      simp
    · rw [if_neg h]
      have := List.length_pos.mpr h
      omega

/-- C8 witness: the empty configuration and record produce exactly the
default category. -/
theorem determine_categories_nonempty_witness :
    (baseCategories {} {} = [] → determine_categories {} {} = [defaultCategory {} {}]) ∧
    1 ≤ (determine_categories {} {}).length :=
  determine_categories_nonempty {} {}

/-- C9: image extraction - the nested `talk.article.images` scenario
yields exactly the one original URL; the same URL reachable through two
separate `images` collections is reported twice (no deduplication); per
element the size variants win in the order large, original, thumbnail,
then a bare `url` key; a string element is selected exactly when it
starts with `http`. -/
theorem extract_images_selection_and_order :
    extract_images topicC9 = [.str (pys "http://a/x.jpg")] ∧
    extract_images topicC9dup =
      [.str (pys "http://a/x.jpg"), .str (pys "http://a/x.jpg")] ∧
    selectImageUrl (.obj [(pys "original", .obj [(pys "url", .str (pys "O"))]),
        (pys "large", .obj [(pys "url", .str (pys "L"))])]) = some (.str (pys "L")) ∧
    selectImageUrl (.obj [(pys "thumbnail", .obj [(pys "url", .str (pys "T"))]),
        (pys "url", .str (pys "U"))]) = some (.str (pys "T")) ∧
    selectImageUrl (.obj [(pys "url", .str (pys "U"))]) = some (.str (pys "U")) ∧
    selectImageUrl (.str (pys "https://s")) = some (.str (pys "https://s")) ∧
    selectImageUrl (.str (pys "ftp://s")) = none :=
  ⟨rfl, rfl, rfl, rfl, rfl, rfl, rfl⟩

/-- C10: a non-empty title consisting solely of ellipsis and dot
characters strips to the empty string, which is a prefix of every first
line, so `_remove_title_duplication` always drops the first line of a
body with non-blank content. -/
theorem ellipsis_only_title_removes_first_line (st : Option PStr) (text title : PStr)
    (htitle : title ≠ []) (hchars : ∀ c ∈ title, c = '…' ∨ c = '.')
    (htext : pyStrip text ≠ []) :
    remove_title_duplication st text title =
      pyStrip (List.intercalate ['\n'] (splitNl (pyStrip text)).tail) := by
  have htne : text ≠ [] := by
    intro e
    apply htext
    rw [e]
    rfl
  obtain ⟨l0, rest, hsplit, hl0⟩ := splitNl_strip_head text htext
  have hstrip : rstripChars ['…', '.'] title = [] := by
    rw [rstripChars, rstripP_eq_nil_iff]
    intro c hc
    rcases hchars c hc with h | h <;> subst h <;> decide
  have hdup : is_title_duplicate st (pyStrip l0) title = true := by
    unfold is_title_duplicate exact_match
    rw [hstrip, nil_isPrefixOf]
    simp
  simp only [remove_title_duplication, hsplit, htne, htitle, hl0, hdup, if_true,
    if_false, or_self, List.tail_cons]

/-- C10 witness: a two-line body and the pure-ellipsis title `…`. -/
theorem ellipsis_only_title_removes_first_line_witness :
    (pys "…" ≠ []) ∧ (∀ c ∈ pys "…", c = '…' ∨ c = '.') ∧ (pyStrip (pys "hi\nthere") ≠ []) ∧
    remove_title_duplication none (pys "hi\nthere") (pys "…") =
      pyStrip (List.intercalate ['\n'] (splitNl (pyStrip (pys "hi\nthere"))).tail) :=
  ⟨by decide, by decide, by decide,
   ellipsis_only_title_removes_first_line none (pys "hi\nthere") (pys "…")
     (by decide) (by decide) (by decide)⟩

/-- Helper for C2: `_remove_title_duplication` is a no-op whenever the
stripped first line of its input is not judged a duplicate of the
title. -/
theorem remove_title_duplication_noop (st : Option PStr) (title x : PStr)
    (h : is_title_duplicate st (firstLineStripped x) title = false) :
    remove_title_duplication st x title = x := by
  unfold remove_title_duplication
  by_cases h0 : x = [] ∨ title = []
  · rw [if_pos h0]
  · rw [if_neg h0]
    cases e : splitNl (pyStrip x) with
    | nil => simp only [e]
    | cons l0 rest =>
      simp only [e]
      by_cases hl : l0 = []
      · rw [if_pos hl]
      · rw [if_neg hl]
        have h2 : is_title_duplicate st (pyStrip l0) title = false := by
          have hfl : firstLineStripped x = pyStrip l0 := by
            unfold firstLineStripped
            rw [e]
            rfl
          rwa [hfl] at h
        simp [h2]

/-- C2 (amended): running `_remove_title_duplication` twice agrees with
running it once whenever the first line of the once-processed body is not
itself judged a duplicate of the title; without that proviso idempotence
fails, because each run removes only one leading duplicate line (see the
counterexample). -/
theorem remove_title_duplication_conditional_idempotent (st : Option PStr)
    (text title : PStr)
    (h : is_title_duplicate st
      (firstLineStripped (remove_title_duplication st text title)) title = false) :
    remove_title_duplication st (remove_title_duplication st text title) title =
      remove_title_duplication st text title :=
  remove_title_duplication_noop st title _ h

/-- C2 witness: a body whose first line does not duplicate the title. -/
theorem remove_title_duplication_conditional_idempotent_witness :
    is_title_duplicate none
      (firstLineStripped (remove_title_duplication none (pys "hello\nworld") (pys "zz")))
      (pys "zz") = false ∧
    remove_title_duplication none
        (remove_title_duplication none (pys "hello\nworld") (pys "zz")) (pys "zz") =
      remove_title_duplication none (pys "hello\nworld") (pys "zz") :=
  ⟨by decide,
   remove_title_duplication_conditional_idempotent none (pys "hello\nworld") (pys "zz")
     (by decide)⟩

/-- C2 counterexample: with title `ab` and body `ab\nab\nZ` the first run
yields `ab\nZ` and the second run strips a further line, so running twice
differs from running once. -/
theorem remove_title_duplication_not_idempotent :
    remove_title_duplication none
        (remove_title_duplication none (pys "ab\nab\nZ") (pys "ab")) (pys "ab") ≠
      remove_title_duplication none (pys "ab\nab\nZ") (pys "ab") := by
  decide

/-- C3: the code can emit a literally empty title.  `topicC3` is
classified as an article and, with the default configuration (title
synthesis enabled), the title selection of `_process_article` returns the
empty string: the first body line is a zsxq tag whose `title` attribute
is empty, `_process_zsxq_tags` erases it, and the emptiness check at line
423 was made before tag processing. -/
theorem empty_title_reaches_output :
    determine_content_type topicC3 = pys "article" ∧
    article_title_step none {} topicC3 =
      .ok (pys "", some (pys "<e type=\"w\" title=\"\" />")) := by
  decide

/-- C4 (amended): the explicit `content` title wins only for records that
reach the `content` branch of the if/elif chain - records whose kind is
none of talk, question or answer (or which lack the corresponding nested
payload).  For such records the title is returned verbatim and the stored
source-line state is left unchanged.  For talk/question/answer records the
explicit title is ignored (see the counterexample). -/
theorem explicit_title_content_branch (st : Option PStr) (t : Topic) (ti : PStr)
    (h1 : isTalkBranch t = false) (h2 : isQuestionBranch t = false)
    (h3 : isAnswerBranch t = false) (h4 : t.content.isSome = true)
    (h5 : (t.content.getD {}).title = some ti) (h6 : ti ≠ []) :
    generate_title st t = .ok (ti, st) := by
  simp [generate_title, explicitTitle, h1, h2, h3, h4, h5, h6]

/-- C4 witness: a record of kind `article` with an explicit title. -/
theorem explicit_title_content_branch_witness :
    isTalkBranch topicC4w = false ∧ isQuestionBranch topicC4w = false ∧
    isAnswerBranch topicC4w = false ∧ topicC4w.content.isSome = true ∧
    (topicC4w.content.getD {}).title = some (pys "T") ∧ pys "T" ≠ [] ∧
    generate_title none topicC4w = .ok (pys "T", none) :=
  ⟨by decide, by decide, by decide, by decide, by decide, by decide,
   explicit_title_content_branch none topicC4w (pys "T") (by decide) (by decide)
     (by decide) (by decide) (by decide) (by decide)⟩

/-- C4 counterexample: a talk record carrying an explicit `content` title
`T` - synthesis returns the first body line `hello`, not the explicit
title, because the talk branch wins and never consults `content`. -/
theorem explicit_title_ignored_for_talk :
    (topicC4.content.getD {}).title = some (pys "T") ∧
    generate_title none topicC4 = .ok (pys "hello", some (pys "hello")) ∧
    pys "hello" ≠ pys "T" := by
  decide

/-- C5 (amended): for a record with no explicit title and an empty or
whitespace-only body, `_generate_title` returns the placeholder `无标题`
when `create_time` is missing, the formatted share-date title when it
parses, and propagates the `ValueError` when it is present but
unparseable (the claim's promise that no exception escapes fails, see
the counterexample). -/
theorem empty_body_title_fallback (st : Option PStr) (t : Topic)
    (hexp : explicitTitle t = none) (hbody : pyStrip (topicText t) = []) :
    generate_title st t =
      (if t.create_time = [] then .ok (pys "无标题", none)
       else
         match parse_datetime_safe t.create_time with
         | .ok dt => .ok (formatShareDate dt, none)
         | .error e => .error e) := by
  have h1 : splitNl (pyStrip (topicText t)) = [[]] := by
    rw [hbody]
    rfl
  have h2 : pyStrip (collapseWs (topicText t)) = [] := pyStrip_collapseWs_eq_nil hbody
  simp only [generate_title, hexp, generate_title_core, h1, h2]
  by_cases hct : t.create_time = [] <;> simp [hct]

/-- C5 witness: whitespace-only body and missing `create_time` produce
the placeholder title. -/
theorem empty_body_title_fallback_witness :
    explicitTitle topicC5w = none ∧ pyStrip (topicText topicC5w) = [] ∧
    generate_title none topicC5w =
      (if topicC5w.create_time = [] then .ok (pys "无标题", none)
       else
         match parse_datetime_safe topicC5w.create_time with
         | .ok dt => .ok (formatShareDate dt, none)
         | .error e => .error e) :=
  ⟨by decide, by decide, empty_body_title_fallback none topicC5w (by decide) (by decide)⟩

/-- C5 counterexample: a whitespace-only body with the unparseable
timestamp `garbage` makes `_generate_title` raise (modelled as an error
result) instead of returning the placeholder title. -/
theorem unparseable_create_time_raises :
    pyStrip (topicText topicC5) = [] ∧
    generate_title none topicC5 = .error "cannot parse datetime string" := by
  decide

/-- C6 (amended): the title-and-deduplication fragment of the article
path is independent of the processor's stored `_title_source_line` state
exactly on the paths where title synthesis overwrites that state - title
synthesis enabled and no explicit-title early return.  On the explicit
title path the stale state leaks into duplicate removal (see the
counterexample), so the transformation is not a pure function of the
record. -/
theorem title_and_dedup_state_independent (cfg : Config) (t : Topic)
    (st1 st2 : Option PStr) (hsync : article_sync_title cfg = true)
    (hexp : explicitTitle t = none) :
    title_and_dedup st1 cfg t = title_and_dedup st2 cfg t := by
  simp [title_and_dedup, article_title_step, generate_title, hsync, hexp]

/-- C6 witness: same record, two different incoming states, same
output. -/
theorem title_and_dedup_state_independent_witness :
    article_sync_title {} = true ∧ explicitTitle topicA = none ∧
    title_and_dedup none {} topicA = title_and_dedup (some (pys "x")) {} topicA :=
  ⟨by decide, by decide,
   title_and_dedup_state_independent {} topicA none (some (pys "x")) (by decide)
     (by decide)⟩

/-- C6 counterexample: both records are classified as articles, so both
take the `_process_article` path that the fragment models.  Processing
`topicA` stores `secret line` in the instance state; processing `topicB`
(explicit title, body starting with that very line) afterwards removes
its first body line, while processing `topicB` on a fresh processor
keeps it - the output for B depends on the record processed before
it. -/
theorem stale_source_line_changes_output :
    determine_content_type topicA = pys "article" ∧
    determine_content_type topicB = pys "article" ∧
    title_and_dedup none {} topicA =
      .ok ((pys "secret line", pys "more"), some (pys "secret line")) ∧
    title_and_dedup (some (pys "secret line")) {} topicB =
      .ok ((pys "T", pys "B body"), some (pys "secret line")) ∧
    title_and_dedup none {} topicB =
      .ok ((pys "T", pys "secret line\nB body"), none) ∧
    title_and_dedup (some (pys "secret line")) {} topicB ≠
      title_and_dedup none {} topicB := by
  decide

/-- C7: `_is_title_duplicate` holds exactly when one of the claim's four
disjuncts holds, with the length floors 10 (truncated match) and 8 (fuzzy
match) preserved exactly; stated for every state in which the recorded
source line, if any, is non-empty (which is the only way the code ever
records one). -/
theorem is_title_duplicate_iff_claimed (st : Option PStr) (fl title : PStr)
    (hst : st ≠ some []) :
    is_title_duplicate st fl title = true ↔ claimedDuplicate st fl title := by
  have hsp := stripPunct_rstrip_ellipsis title
  have hA : exact_match fl title = true ↔ rstripChars ['…', '.'] title <+: fl := by
    simp [exact_match, List.isPrefixOf_iff_prefix]
  have hB : truncated_match fl title = true ↔
      (10 ≤ (rstripChars ['…', '.'] title).length ∧
        rstripChars ['…', '.'] title <+: fl) := by
    simp only [truncated_match, Bool.and_eq_true, decide_eq_true_eq,
      List.isPrefixOf_iff_prefix]
    tauto
  have hC : fuzzy_match fl title = true ↔
      (stripPunct title ≠ [] ∧ 8 ≤ (stripPunct title).length ∧
        stripPunct title <+: stripPunct fl) := by
    simp only [fuzzy_match, hsp, Bool.and_eq_true, decide_eq_true_eq,
      List.isPrefixOf_iff_prefix, Bool.not_eq_true', List.isEmpty_eq_false]
    tauto
  cases st with
  | none =>
    simp only [is_title_duplicate, Bool.or_eq_true, hA, hB, hC, claimedDuplicate]
    simp
    exact or_assoc
  | some s =>
    have hs : s ≠ [] := by
      intro e
      exact hst (by rw [e])
    have hex : (∃ s2, (some s : Option PStr) = some s2 ∧ fl = s2) ↔ fl = s := by
      constructor
      · rintro ⟨s2, h1, h2⟩
        cases h1
        exact h2
      · intro h
        exact ⟨s, rfl, h⟩
    simp only [is_title_duplicate, Bool.or_eq_true, Bool.and_eq_true, hA, hB, hC,
      claimedDuplicate, beq_iff_eq, Bool.not_eq_true', List.isEmpty_eq_false, hex]
    constructor
    · intro h
      rcases h with ((⟨_, h2⟩ | h) | h) | h
      · exact Or.inl h2
      · exact Or.inr (Or.inl h)
      · exact Or.inr (Or.inr (Or.inl h))
      · exact Or.inr (Or.inr (Or.inr h))
    · intro h
      rcases h with h | h | h | h
      · exact Or.inl (Or.inl (Or.inl ⟨hs, h⟩))
      · exact Or.inl (Or.inl (Or.inr h))
      · exact Or.inl (Or.inr h)
      · exact Or.inr h

/-- C7 witness: a recorded-line-free state where the exact match fires. -/
theorem is_title_duplicate_iff_claimed_witness :
    ((none : Option PStr) ≠ some []) ∧
    (is_title_duplicate none (pys "abcdefgh") (pys "abcdefgh") = true ↔
      claimedDuplicate none (pys "abcdefgh") (pys "abcdefgh")) :=
  ⟨by decide,
   is_title_duplicate_iff_claimed none (pys "abcdefgh") (pys "abcdefgh") (by decide)⟩
